import Mathlib

/-!
Shallow embedding of the Particule web framework core
(`lib/vdom.py`, `lib/events_animations.py`, `lib/routing.py`,
`lib/cookies_sessions.py`, `lib/middleware.py`, `lib/responses.py`,
`lib/file_upload.py`, `lib/app.py`) together with theorems checking the
natural-language specification against that code.

Conventions of the embedding:
* Python `str` is modelled as Lean `String` (or `List Char` where the code
  works byte-wise on ASCII data).
* Python dicts are modelled as insertion-ordered association lists with the
  dict update/delete semantics spelled out (`dictSet`, `dictDel`).
* `time.time()` is modelled by an explicit integer `now` parameter.
* Fallible parsing is modelled with `Option`.
-/

set_option maxHeartbeats 1600000

namespace Particule

/-- The single-quote character `U+0027`, built numerically so it can be used
inside generated JavaScript strings. -/
def squote : Char := Char.ofNat 39

/-- The single-quote character as a one-character string. -/
def sq : String := squote.toString

/-- The backslash character. -/
def bslash : Char := Char.ofNat 92

/-- CPython `html.escape(s, quote=True)` (the default used by both
`Element._escape_html` and `Element._escape_attribute` in `lib/vdom.py`):
replaces `&`, `<`, `>`, `"` and the single quote by entities.  CPython
performs the five `str.replace` calls in that order, with `&` first; since no
replacement output contains a character that a later replacement rewrites,
this equals the character-wise map implemented here. -/
def escapeChar (c : Char) : List Char :=
  if c = '&' then "&amp;".data
  else if c = '<' then "&lt;".data
  else if c = '>' then "&gt;".data
  else if c = '"' then "&quot;".data
  else if c = squote then "&#x27;".data
  else [c]

/-- `html.escape` over a character list. -/
def escape_html : List Char → List Char
  | [] => []
  | c :: cs => escapeChar c ++ escape_html cs

/-- `html.escape` at `String` type. -/
def escapeHtmlStr (s : String) : String := ⟨escape_html s.data⟩

mutual

/-- Modelled from the spec: HTML unescaping (the inverse direction named by
the spec's round-trip property, i.e. CPython `html.unescape`), restricted to
the five character entities that `html.escape` emits; every other character,
including a bare `&` that does not start one of those entities, is passed
through unchanged. -/
def unescape_html : List Char → List Char
  | [] => []
  | c :: rest => if c = '&' then unescapeAfterAmp rest else c :: unescape_html rest
termination_by cs => (cs.length, 0)

def unescapeAfterAmp : List Char → List Char
  | 'a' :: 'm' :: 'p' :: ';' :: r => '&' :: unescape_html r
  | 'l' :: 't' :: ';' :: r => '<' :: unescape_html r
  | 'g' :: 't' :: ';' :: r => '>' :: unescape_html r
  | 'q' :: 'u' :: 'o' :: 't' :: ';' :: r => '"' :: unescape_html r
  | '#' :: 'x' :: '2' :: '7' :: ';' :: r => squote :: unescape_html r
  | r => '&' :: unescape_html r
termination_by cs => (cs.length, 1)

end

/-- `html.unescape` at `String` type. -/
def unescapeHtmlStr (s : String) : String := ⟨unescape_html s.data⟩

/-! ## Event/Script Compiler (`lib/events_animations.py`) -/

namespace JSBuilder

/-- `JSBuilder.alert`: `f"alert('{message}')"`. -/
def alert (message : String) : String :=
  "alert(" ++ sq ++ message ++ sq ++ ")"

/-- `JSBuilder.set_text`: the f-string
`document.getElementById('{element_id}').textContent = '{text}'` — plain
interpolation, no escaping of the interpolated values. -/
def set_text (element_id text : String) : String :=
  "document.getElementById(" ++ sq ++ element_id ++ sq ++ ").textContent = " ++
    sq ++ text ++ sq

/-- `JSBuilder.toggle_class`. -/
def toggle_class (element_id class_name : String) : String :=
  "document.getElementById(" ++ sq ++ element_id ++ sq ++ ").classList.toggle(" ++
    sq ++ class_name ++ sq ++ ")"

/-- `JSBuilder.add_class`. -/
def add_class (element_id class_name : String) : String :=
  "document.getElementById(" ++ sq ++ element_id ++ sq ++ ").classList.add(" ++
    sq ++ class_name ++ sq ++ ")"

/-- `JSBuilder.remove_class`. -/
def remove_class (element_id class_name : String) : String :=
  "document.getElementById(" ++ sq ++ element_id ++ sq ++ ").classList.remove(" ++
    sq ++ class_name ++ sq ++ ")"

/-- `JSBuilder.navigate_to`. -/
def navigate_to (path : String) : String :=
  "window.location.hash = " ++ sq ++ path ++ sq

end JSBuilder

/-- A `PyScript` instance is its ordered statement list; each builder method
appends one `JSBuilder` snippet. -/
def PyScript := List String

namespace PyScript

/-- The empty script, as built by `PyScript.__init__`. -/
def empty : PyScript := []

/-- `PyScript.set_text`: appends `JSBuilder.set_text` to the statement list. -/
def set_text (ps : PyScript) (element_id text : String) : PyScript :=
  List.append ps [JSBuilder.set_text element_id text]

/-- `PyScript.clear_input`. -/
def clear_input (ps : PyScript) (input_id : String) : PyScript :=
  List.append ps
    ["document.getElementById(" ++ sq ++ input_id ++ sq ++ ").value = " ++ sq ++ sq]

/-- `PyScript.prevent_default`. -/
def prevent_default (ps : PyScript) : PyScript :=
  List.append ps ["event.preventDefault()"]

/-- `PyScript.to_js`: `'; '.join(self.statements) + ';'`. -/
def to_js (ps : PyScript) : String :=
  String.intercalate "; " ps ++ ";"

end PyScript

/-- Scanner over generated JavaScript that tracks whether the position is
inside a single-quoted string literal (honouring backslash escapes inside a
literal); returns `true` when the input ends still inside an unterminated
literal, i.e. the quoting structure is broken. -/
def jsEndsInsideLiteral : List Char → Bool → Bool
  | [], inStr => inStr
  | c :: cs, false =>
    if c = squote then jsEndsInsideLiteral cs true else jsEndsInsideLiteral cs false
  | c :: cs, true =>
    if c = bslash then
      match cs with
      | [] => true
      | _ :: cs2 => jsEndsInsideLiteral cs2 true
    else if c = squote then jsEndsInsideLiteral cs false
    else jsEndsInsideLiteral cs true

/-- All single-quoted string literals in the script are properly terminated. -/
def jsLiteralsClosed (s : String) : Bool :=
  !(jsEndsInsideLiteral s.data false)

/-! ## Ordered-dict helpers

Python dicts are insertion-ordered with unique keys; they are modelled as
association lists, with assignment keeping the position of an existing key
and appending a fresh key at the end, and deletion removing the (unique)
binding. -/

/-- `d.get(k)` / `d[k]`: first binding of `k`. -/
def dictGet {κ α : Type} [DecidableEq κ] : List (κ × α) → κ → Option α
  | [], _ => none
  | (k2, v) :: rest, k => if k2 = k then some v else dictGet rest k

/-- `d[k] = v`: overwrite in place, else append at the end. -/
def dictSet {κ α : Type} [DecidableEq κ] : List (κ × α) → κ → α → List (κ × α)
  | [], k, v => [(k, v)]
  | (k2, v2) :: rest, k, v =>
    if k2 = k then (k2, v) :: rest else (k2, v2) :: dictSet rest k v

/-- `del d[k]`: drop the binding of `k`. -/
def dictDel {κ α : Type} [DecidableEq κ] : List (κ × α) → κ → List (κ × α)
  | [], _ => []
  | (k2, v2) :: rest, k => if k2 = k then rest else (k2, v2) :: dictDel rest k

/-- `k in d`. -/
def dictContains {κ α : Type} [DecidableEq κ] (d : List (κ × α)) (k : κ) : Bool :=
  (dictGet d k).isSome

/-- Python `str.replace` with single-character arguments (used for
`key.replace('_', '-')` in `to_html`). -/
def replaceChar (src tgt : Char) (s : String) : String :=
  ⟨s.data.map fun c => if c = src then tgt else c⟩

/-- Python `s.startswith(pre)`, character-wise. -/
def pyStartsWith (s pre : String) : Bool :=
  List.isPrefixOf pre.data s.data

/-- Python `s[n:]`, character-wise. -/
def pyDrop (s : String) (n : Nat) : String :=
  ⟨s.data.drop n⟩

/-! ## Element Tree (`lib/vdom.py`) -/

/-- A prop value as it can occur in an `Element`'s prop dict: a string, the
`None` sentinel, an int, a bool, a style dict (snake_case CSS key to value
string), or a callable handler description (modelled by the `PyScript`
statement list the callable builds, which is what `to_html` compiles via
`script.to_js()`). -/
inductive PropValue where
  | vstr (s : String)
  | vnone
  | vint (n : Int)
  | vbool (b : Bool)
  | vstyle (entries : List (String × String))
  | vscript (statements : List String)
deriving DecidableEq, Repr

/-- Python `repr` of a string-to-string dict, e.g. `\x7b'a': 'b'\x7d`. -/
def pyDictRepr (m : List (String × String)) : String :=
  "\x7b" ++
    String.intercalate ", " (m.map fun kv => sq ++ kv.1 ++ sq ++ ": " ++ sq ++ kv.2 ++ sq) ++
    "\x7d"

/-- Python `str()` of a prop value (`str(None) = "None"`, `str(True) =
"True"`, decimal ints, strings unchanged).  A raw `PyScript` object's `str`
is its default object repr containing a memory address; it is abstracted by a
fixed tag here, and is unreachable from the claims (callable values under
`on_` keys are compiled to strings before any `str()` call). -/
def pyStr : PropValue → String
  | .vstr s => s
  | .vnone => "None"
  | .vint n => toString n
  | .vbool true => "True"
  | .vbool false => "False"
  | .vstyle m => pyDictRepr m
  | .vscript _ => "<PyScript object>"

/-- A virtual-DOM node (`class Element`): a tag with its prop dict and
children.  `raw` models a non-`Element` child (the `isinstance(child,
Element)` check in `to_html` stringifies-and-escapes such children). -/
inductive Element where
  | node (tag : String) (props : List (String × PropValue)) (children : List Element)
  | raw (s : String)

/-- `if callable(handler_code): ... handler_code = script.to_js()` — a
callable handler description compiles to its joined statement string; every
other value is passed through unchanged. -/
def compileHandler : PropValue → PropValue
  | .vscript stmts => .vstr (PyScript.to_js stmts)
  | v => v

/-- One iteration of the `on_` loop in `to_html` at snapshot key `k`: for an
`on_<event>` key, store the (compiled) value under `on<event>` (in-place
overwrite or append, per dict assignment) and delete the old key. -/
def onStepKey (ps : List (String × PropValue)) (k : String) : List (String × PropValue) :=
  if pyStartsWith k "on_" then
    match dictGet ps k with
    | some v => dictDel (dictSet ps ("on" ++ pyDrop k 3) (compileHandler v)) k
    | none => ps
  else ps

/-- The `for key in list(props_copy.keys())` loop: iterate over the snapshot
of the original keys, threading the mutated dict. -/
def processOnProps (props : List (String × PropValue)) : List (String × PropValue) :=
  (props.map Prod.fst).foldl onStepKey props

/-- The style-dict collapse: if `style` holds a dict, join its entries as
`key-with-dashes: value` separated by `"; "`. -/
def styleStep (props : List (String × PropValue)) : List (String × PropValue) :=
  match dictGet props "style" with
  | some (.vstyle m) =>
    dictSet props "style"
      (.vstr (String.intercalate "; "
        (m.map fun kv => replaceChar '_' '-' kv.1 ++ ": " ++ kv.2)))
  | _ => props

/-- The `class`/`className` merge: when both keys are present, `class`
becomes `f"{class} {className}"` and `className` is deleted. -/
def classStep (props : List (String × PropValue)) : List (String × PropValue) :=
  match dictGet props "class", dictGet props "className" with
  | some cv, some cnv =>
    dictDel (dictSet props "class" (.vstr (pyStr cv ++ " " ++ pyStr cnv))) "className"
  | _, _ => props

/-- One rendered attribute: `f'{attr_name}="{escaped_value}"'` with
`attr_name = key.replace('_', '-')` (or `class` for `className`) and the
value passed through `_escape_attribute` (`html.escape(str(value),
quote=True)`). -/
def attrOf (k : String) (v : PropValue) : String :=
  let name0 := replaceChar '_' '-' k
  let name := if k = "className" then "class" else name0
  name ++ "=\"" ++ escapeHtmlStr (pyStr v) ++ "\""

/-- The attribute-building loop: every prop except `key` and `ref` yields one
attribute string, in prop order. -/
def buildAttrs (props : List (String × PropValue)) : List String :=
  props.filterMap fun kv =>
    if kv.1 = "key" ∨ kv.1 = "ref" then none else some (attrOf kv.1 kv.2)

/-- The fixed self-closing tag set of `to_html`. -/
def self_closing_tags : List String := ["img", "br", "hr", "input", "meta", "link"]

mutual

/-- `Element.to_html`: the serializer of `lib/vdom.py` — text sentinel first,
then `on_` lowering, style collapse, class merge, attribute build, and either
a self-closing form or recursive child serialization. -/
def Element.to_html : Element → String
  | .raw s => escapeHtmlStr s
  | .node tag props children =>
    if tag = "text" then
      escapeHtmlStr (pyStr ((dictGet props "content").getD (.vstr "")))
    else
      let props1 := classStep (styleStep (processOnProps props))
      let attrs := buildAttrs props1
      let attrs_str := if attrs.isEmpty then "" else " " ++ String.intercalate " " attrs
      if self_closing_tags.contains tag then
        "<" ++ tag ++ attrs_str ++ " />"
      else
        "<" ++ tag ++ attrs_str ++ ">" ++ Element.childrenHtml children ++
          "</" ++ tag ++ ">"

/-- `''.join(...)` over the children: child `Element`s recurse, non-`Element`
children are stringified and HTML-escaped (the `raw` case of `to_html`). -/
def Element.childrenHtml : List Element → String
  | [] => ""
  | c :: cs => Element.to_html c ++ Element.childrenHtml cs

end

/-! ## Router (`lib/routing.py`) -/

/-- Python `path.split('/')` (single-character separator, empties kept). -/
def splitCharAux (sep : Char) : List Char → List Char → List String
  | [], acc => [⟨acc.reverse⟩]
  | c :: cs, acc =>
    if c = sep then ⟨acc.reverse⟩ :: splitCharAux sep cs []
    else splitCharAux sep cs (c :: acc)

/-- Python `s.split(sep)` for a one-character separator. -/
def pySplitChar (sep : Char) (s : String) : List String :=
  splitCharAux sep s.data []

/-- Python `c in s` for a character. -/
def strContainsChar (s : String) (c : Char) : Bool :=
  s.data.contains c

/-- Value of one hex digit, upper or lower case. -/
def hexDigitVal (c : Char) : Option Nat :=
  if 48 ≤ c.toNat ∧ c.toNat ≤ 57 then some (c.toNat - 48)
  else if 97 ≤ c.toNat ∧ c.toNat ≤ 102 then some (c.toNat - 87)
  else if 65 ≤ c.toNat ∧ c.toNat ≤ 70 then some (c.toNat - 55)
  else none

/-- `urllib.parse.unquote`, modelled for single-byte percent escapes: each
valid `%XX` pair decodes to the byte's character, an invalid escape leaves
the `%` in place and scanning continues (multi-byte UTF-8 sequences are out
of scope; the route-matching claims use unencoded ASCII segments). -/
def unquoteChars : List Char → List Char
  | [] => []
  | '%' :: a :: b :: r =>
    (match hexDigitVal a, hexDigitVal b with
     | some hi, some lo => Char.ofNat (16 * hi + lo) :: unquoteChars r
     | _, _ => '%' :: unquoteChars (a :: b :: r))
  | c :: r => c :: unquoteChars r

/-- `unquote` at `String` type. -/
def unquote (s : String) : String := ⟨unquoteChars s.data⟩

/-- The inner `for pattern_part, path_part in zip(...)` loop of
`Router._match_route`: a `:`-prefixed pattern segment binds its name to the
URL-decoded path segment, a literal segment must equal the path segment, and
any mismatch fails the whole pattern.  Called only with equally long lists. -/
def segBind : List String → List String → Option (List (String × String))
  | [], [] => some []
  | pp :: pps, qq :: qqs =>
    if pyStartsWith pp ":" then
      (match segBind pps qqs with
       | some params => some ((pyDrop pp 1, unquote qq) :: params)
       | none => none)
    else if pp = qq then segBind pps qqs
    else none
  | _, _ => none

/-- The `for route_pattern in self.routes.keys()` loop: only patterns
containing `:` are tried, segment counts must agree, and the first match (in
registration order) wins. -/
def matchLoop (path_parts : List String) : List String → Option String × List (String × String)
  | [] => (none, [])
  | rp :: rest =>
    if strContainsChar rp ':' then
      let pattern_parts := pySplitChar '/' rp
      if pattern_parts.length = path_parts.length then
        match segBind pattern_parts path_parts with
        | some params => (some rp, params)
        | none => matchLoop path_parts rest
      else matchLoop path_parts rest
    else matchLoop path_parts rest

/-- `Router._match_route` (the route table is its registration-ordered list
of path patterns; the stored components do not enter matching): exact match
first, else first pattern match, else `(None, \x7b\x7d)`. -/
def Router.match_route (routes : List String) (path : String) :
    Option String × List (String × String) :=
  if routes.contains path then (some path, [])
  else matchLoop (pySplitChar '/' path) routes

/-! ## Session Store (`lib/cookies_sessions.py`) -/

/-- One record of `Session._sessions`: `\x7b'data': ..., 'created_at':
time.time(), 'max_age': max_age\x7d`.  Timestamps are modelled as integers
supplied explicitly where the code calls `time.time()`. -/
structure SessionRecord (α : Type) where
  data : α
  created_at : Int
  max_age : Int
deriving DecidableEq, Repr

/-- The process-wide `Session._sessions` mapping. -/
def SessionStore (α : Type) : Type := List (String × SessionRecord α)

namespace Session

/-- `Session.create`: store a fresh record under the generated id (the
`uuid4` id is an explicit parameter here) with `created_at = time.time()`. -/
def create {α : Type} (store : SessionStore α) (session_id : String) (d : α)
    (now max_age : Int) : SessionStore α :=
  dictSet store session_id ⟨d, now, max_age⟩

/-- `Session.destroy`: `_sessions.pop(session_id, None)`. -/
def destroy {α : Type} (store : SessionStore α) (session_id : String) : SessionStore α :=
  dictDel store session_id

/-- `Session.get`: look the id up; if `time.time() - created_at > max_age`
destroy the record and return `None`, else return the data. -/
def get {α : Type} (store : SessionStore α) (session_id : String) (now : Int) :
    Option α × SessionStore α :=
  match dictGet store session_id with
  | some rec2 =>
    if now - rec2.created_at > rec2.max_age then (none, destroy store session_id)
    else (some rec2.data, store)
  | none => (none, store)

end Session

/-! ## JSON body parsing (`json.loads` as used by `Request.__init__`) -/

/-- A decoded Python JSON value: `json.loads` yields `None`, bools, ints
(integral number literals), floats (kept as their lexeme — no claim depends
on float arithmetic), strings, lists and dicts. -/
inductive PyJson where
  | null
  | jbool (b : Bool)
  | jint (n : Int)
  | jfloat (lexeme : String)
  | jstr (s : String)
  | jarr (xs : List PyJson)
  | jobj (kvs : List (String × PyJson))

/-- JSON whitespace accepted between tokens by `json.loads`. -/
def isJsonWs (c : Char) : Bool :=
  c = ' ' || c = Char.ofNat 9 || c = Char.ofNat 10 || c = Char.ofNat 13

/-- Skip leading JSON whitespace. -/
def skipWs : List Char → List Char
  | [] => []
  | c :: cs => if isJsonWs c then skipWs cs else c :: cs

/-- ASCII decimal digit test. -/
def isDigitChar (c : Char) : Bool :=
  decide (48 ≤ c.toNat) && decide (c.toNat ≤ 57)

/-- Longest digit run at the head of the input. -/
def takeDigits : List Char → List Char × List Char
  | [] => ([], [])
  | c :: cs =>
    if isDigitChar c then
      let (ds, r) := takeDigits cs
      (c :: ds, r)
    else ([], c :: cs)

/-- Numeric value of a digit run. -/
def digitsVal (ds : List Char) : Nat :=
  ds.foldl (fun acc c => acc * 10 + (c.toNat - 48)) 0

/-- Single-character JSON string escapes. -/
def jsonEscapeChar (c : Char) : Option Char :=
  if c = '"' then some '"'
  else if c = bslash then some bslash
  else if c = '/' then some '/'
  else if c = 'n' then some (Char.ofNat 10)
  else if c = 't' then some (Char.ofNat 9)
  else if c = 'r' then some (Char.ofNat 13)
  else if c = 'b' then some (Char.ofNat 8)
  else if c = 'f' then some (Char.ofNat 12)
  else none

/-- JSON string contents after the opening quote (`\uXXXX` covers scalar
values; surrogate pairs are out of scope for the claims). -/
def parseStrAux : List Char → List Char → Option (String × List Char)
  | _, [] => none
  | acc, c1 :: rest =>
    if c1 = '"' then some (⟨acc.reverse⟩, rest)
    else if c1 = bslash then
      match rest with
      | 'u' :: a :: b :: c :: d :: rest2 =>
        (match hexDigitVal a, hexDigitVal b, hexDigitVal c, hexDigitVal d with
         | some va, some vb, some vc, some vd =>
           parseStrAux (Char.ofNat (((va * 16 + vb) * 16 + vc) * 16 + vd) :: acc) rest2
         | _, _, _, _ => none)
      | e :: rest2 =>
        (match jsonEscapeChar e with
         | some ch => parseStrAux (ch :: acc) rest2
         | none => none)
      | [] => none
    else parseStrAux (c1 :: acc) rest

/-- The exponent part of a JSON number, returning its lexeme. -/
def parseExponent : List Char → Option (List Char × List Char)
  | c :: r =>
    if c = 'e' ∨ c = 'E' then
      let (sgn, r1) :=
        match r with
        | '+' :: r2 => (['+'], r2)
        | '-' :: r2 => (['-'], r2)
        | _ => ([], r)
      let (ds, r2) := takeDigits r1
      if ds.isEmpty then none else some (c :: (sgn ++ ds), r2)
    else some ([], c :: r)
  | [] => some ([], [])

/-- A JSON number literal: `-?int(.frac)?(exp)?`, leading zeros rejected;
an integral literal decodes to a Python int, otherwise to a float kept as its
lexeme. -/
def parseNumber (cs : List Char) : Option (PyJson × List Char) :=
  let (neg, cs1) := match cs with | '-' :: r => (true, r) | _ => (false, cs)
  let (ds, cs2) := takeDigits cs1
  if ds.isEmpty then none
  else if ds.length > 1 ∧ ds.headD ' ' = '0' then none
  else
    match cs2 with
    | '.' :: r =>
      let (fs, cs3) := takeDigits r
      if fs.isEmpty then none
      else
        (match parseExponent cs3 with
         | some (ex, cs4) =>
           some (.jfloat ⟨(if neg then ['-'] else []) ++ ds ++ '.' :: fs ++ ex⟩, cs4)
         | none => none)
    | c :: r =>
      if c = 'e' ∨ c = 'E' then
        (match parseExponent (c :: r) with
         | some ([], _) => none
         | some (ex, cs4) => some (.jfloat ⟨(if neg then ['-'] else []) ++ ds ++ ex⟩, cs4)
         | none => none)
      else
        some (.jint (if neg then -(digitsVal ds : Int) else (digitsVal ds : Int)), cs2)
    | [] =>
      some (.jint (if neg then -(digitsVal ds : Int) else (digitsVal ds : Int)), cs2)

mutual

/-- One JSON value (fuel-guarded recursion; the top-level call supplies
enough fuel for any input since every nesting level consumes a character). -/
def parseValue : Nat → List Char → Option (PyJson × List Char)
  | 0, _ => none
  | fuel + 1, cs0 =>
    match skipWs cs0 with
    | [] => none
    | c :: rest =>
      if c = '"' then
        (match parseStrAux [] rest with
         | some (s, r) => some (.jstr s, r)
         | none => none)
      else if c = Char.ofNat 123 then parseObj fuel rest
      else if c = '[' then parseArr fuel rest
      else if c = 'n' then
        (match rest with
         | 'u' :: 'l' :: 'l' :: r => some (.null, r)
         | _ => none)
      else if c = 't' then
        (match rest with
         | 'r' :: 'u' :: 'e' :: r => some (.jbool true, r)
         | _ => none)
      else if c = 'f' then
        (match rest with
         | 'a' :: 'l' :: 's' :: 'e' :: r => some (.jbool false, r)
         | _ => none)
      else parseNumber (c :: rest)

/-- Array elements after `[` (not immediately `]`). -/
def parseElems : Nat → List Char → Option (List PyJson × List Char)
  | 0, _ => none
  | fuel + 1, cs =>
    match parseValue fuel cs with
    | some (v, r1) =>
      (match skipWs r1 with
       | ',' :: r2 =>
         (match parseElems fuel r2 with
          | some (vs, r3) => some (v :: vs, r3)
          | none => none)
       | ']' :: r2 => some ([v], r2)
       | _ => none)
    | none => none

/-- The contents of an array after `[`. -/
def parseArr : Nat → List Char → Option (PyJson × List Char)
  | 0, _ => none
  | fuel + 1, cs =>
    match skipWs cs with
    | ']' :: r => some (.jarr [], r)
    | cs1 =>
      (match parseElems fuel cs1 with
       | some (vs, r) => some (.jarr vs, r)
       | none => none)

/-- Object members after the opening brace (not immediately the closing
brace): `"key" : value`, comma-separated. -/
def parseMembers : Nat → List Char → Option (List (String × PyJson) × List Char)
  | 0, _ => none
  | fuel + 1, cs =>
    match skipWs cs with
    | '"' :: r0 =>
      (match parseStrAux [] r0 with
       | some (k, r1) =>
         (match skipWs r1 with
          | ':' :: r2 =>
            (match parseValue fuel r2 with
             | some (v, r3) =>
               (match skipWs r3 with
                | ',' :: r4 =>
                  (match parseMembers fuel r4 with
                   | some (kvs, r5) => some ((k, v) :: kvs, r5)
                   | none => none)
                | c :: r4 =>
                  if c = Char.ofNat 125 then some ([(k, v)], r4) else none
                | [] => none)
             | none => none)
          | _ => none)
       | none => none)
    | _ => none

/-- The contents of an object after the opening brace. -/
def parseObj : Nat → List Char → Option (PyJson × List Char)
  | 0, _ => none
  | fuel + 1, cs =>
    match skipWs cs with
    | c :: r =>
      if c = Char.ofNat 125 then some (.jobj [], r)
      else
        (match parseMembers fuel (c :: r) with
         | some (kvs, r2) => some (.jobj kvs, r2)
         | none => none)
    | [] => none

end

/-- `json.loads` over the request body: one JSON value followed only by
whitespace, else failure. -/
def pyJsonLoads (body : List Char) : Option PyJson :=
  match parseValue (body.length + 1) body with
  | some (v, rest) => if (skipWs rest).isEmpty then some v else none
  | none => none

/-! ## Request construction (`lib/middleware.py`, `Request.__init__`) -/

/-- The body read in `do_POST`/`do_PUT`: `content_length =
int(self.headers.get('Content-Length', 0))`, then `self.rfile.read(...)` if
positive, else `b''`.  An absent header is the `none` case. -/
def request_body (content_length_header : Option Nat) (stream : List Char) : List Char :=
  let content_length := content_length_header.getD 0
  if content_length > 0 then stream.take content_length else []

/-- `Request.__init__`'s JSON-body step: `self.json_data = {}`, then for a
non-empty body `try: self.json_data = json.loads(body) except: pass` — a
parse failure leaves the empty dict, a success stores whatever value was
decoded (not necessarily a dict). -/
def request_json_data (body : List Char) : PyJson :=
  if body.isEmpty then .jobj []
  else
    match pyJsonLoads body with
    | some v => v
    | none => .jobj []

/-- Whether a decoded value is a Python mapping (a dict). -/
def PyJson.isMapping : PyJson → Bool
  | .jobj _ => true
  | _ => false

/-! ## Response, middleware and the dispatch pipeline
(`lib/middleware.py`, `lib/responses.py`, `lib/app.py`) -/

/-- A response body: a JSON-serializable value (dict/list/... set by
`Response.json`) or a plain string (the full-page HTML). -/
inductive BodyVal where
  | bjson (j : PyJson)
  | bstr (s : String)

/-- `Response.__init__`: status 200, a `Content-Type: application/json`
header, an empty-dict body and no cookies. -/
structure Response where
  status_code : Int
  headers : List (String × String)
  body : BodyVal
  cookies_to_set : List String

/-- The freshly constructed `Response()`. -/
def Response.init : Response :=
  ⟨200, [("Content-Type", "application/json")], .bjson (.jobj []), []⟩

/-- `Response.set_status`. -/
def Response.set_status (r : Response) (code : Int) : Response :=
  { r with status_code := code }

/-- `Response.set_header` (dict assignment on the header dict). -/
def Response.set_header (r : Response) (name value : String) : Response :=
  { r with headers := dictSet r.headers name value }

/-- `Response.json`: replace the body by the given value. -/
def Response.json (r : Response) (data : PyJson) : Response :=
  { r with body := .bjson data }

/-- `JSONResponse.error` (`lib/responses.py`): the structured error envelope
`\x7b"ok": False, "error": message, "code": code\x7d` (the optional `details`
argument is never passed by `lib/app.py` and is omitted). -/
def JSONResponse.error (message : String) (code : Int) : PyJson :=
  .jobj [("ok", .jbool false), ("error", .jstr message), ("code", .jint code)]

/-- The request data the dispatch pipeline and the built-in middlewares
consult: the HTTP method, the parsed URL path, and the session resolved from
the `session_id` cookie (further `Request` fields do not influence the
dispatch claims). -/
structure Request where
  method : String
  url_path : String
  session : Option PyJson

/-- A middleware's capability pair: `process_request` may mutate the
response and returns the continue flag; `process_response` may mutate the
response after the handler. -/
structure Middleware where
  process_request : Request → Response → Response × Bool
  process_response : Request → Response → Response

/-- The base class's `process_response`: `pass`. -/
def baseProcessResponse : Request → Response → Response := fun _ r => r

/-- `CORSMiddleware.process_request`: always set the three
`Access-Control-Allow-*` headers; on OPTIONS set 204 and halt the chain. -/
def CORSMiddleware.process_request (allowed_origins allowed_methods allowed_headers : String) :
    Request → Response → Response × Bool := fun req resp =>
  let r1 := ((resp.set_header "Access-Control-Allow-Origin" allowed_origins).set_header
      "Access-Control-Allow-Methods" allowed_methods).set_header
      "Access-Control-Allow-Headers" allowed_headers
  if req.method = "OPTIONS" then (r1.set_status 204, false) else (r1, true)

/-- `CORSMiddleware` with its constructor defaults. -/
def CORSMiddleware.default : Middleware :=
  ⟨CORSMiddleware.process_request "*" "GET, POST, PUT, DELETE, OPTIONS"
      "Content-Type, Authorization",
   baseProcessResponse⟩

/-- `AuthMiddleware._default_auth_checker`: the session is present. -/
def default_auth_checker (req : Request) : Bool :=
  req.session.isSome

/-- The `for route in self.protected_routes` loop of
`AuthMiddleware.process_request`. -/
def authLoop (auth_checker : Request → Bool) (req : Request) (resp : Response) :
    List String → Response × Bool
  | [] => (resp, true)
  | route :: rest =>
    if pyStartsWith req.url_path route then
      if auth_checker req then authLoop auth_checker req resp rest
      else ((resp.set_status 401).json (JSONResponse.error "Unauthorized" 401), false)
    else authLoop auth_checker req resp rest

/-- `AuthMiddleware` with a protected-route list and auth checker. -/
def AuthMiddleware (protected_routes : List String) (auth_checker : Request → Bool) :
    Middleware :=
  ⟨fun req resp => authLoop auth_checker req resp protected_routes,
   baseProcessResponse⟩

/-- `LoggingMiddleware`: its request phase stamps a start time on the
request and continues; its response phase prints one log line.  Neither
phase changes the response, so both are modelled as identities (the I/O and
the timestamp live outside the response state). -/
def LoggingMiddleware : Middleware :=
  ⟨fun _ r => (r, true), baseProcessResponse⟩

/-- Observable pipeline events, used to state when middleware phases, the
handler, the renderer and the final flush run. -/
inductive Ev where
  | reqMw (i : Nat)
  | respMw (i : Nat)
  | handlerRun
  | pageRender
  | staticFile
  | send
deriving DecidableEq, Repr

/-- `RequestHandler._process_middlewares`: run each `process_request` in
registration order, stopping at the first `False`; records one `reqMw` event
per invoked middleware. -/
def process_middlewares_aux : List Middleware → Nat → Request → Response →
    Response × Bool × List Ev
  | [], _, _, resp => (resp, true, [])
  | m :: rest, i, req, resp =>
    let (r2, cont) := m.process_request req resp
    if cont then
      let (r3, ok, evs) := process_middlewares_aux rest (i + 1) req r2
      (r3, ok, .reqMw i :: evs)
    else (r2, false, [.reqMw i])

/-- `_process_middlewares` over the app's middleware list. -/
def process_middlewares (mws : List Middleware) (req : Request) (resp : Response) :
    Response × Bool × List Ev :=
  process_middlewares_aux mws 0 req resp

/-- `RequestHandler._process_response_middlewares`: run every
`process_response` in registration order; records one `respMw` event each. -/
def process_response_aux : List Middleware → Nat → Request → Response →
    Response × List Ev
  | [], _, _, resp => (resp, [])
  | m :: rest, i, req, resp =>
    let r2 := m.process_response req resp
    let (r3, evs) := process_response_aux rest (i + 1) req r2
    (r3, .respMw i :: evs)

/-- `_process_response_middlewares` over the app's middleware list. -/
def process_response_middlewares (mws : List Middleware) (req : Request) (resp : Response) :
    Response × List Ev :=
  process_response_aux mws 0 req resp

/-- What an API handler does when called: return a JSON-serializable value,
return a `Response` object of its own, or raise an exception with a message
(`str(e)`). -/
inductive HandlerResult where
  | ok (value : PyJson)
  | resp (r : Response)
  | raises (message : String)

/-- `app.api_routes`: a dict keyed by `(path, method)`. -/
def ApiRoutes : Type := List ((String × String) × (Request → HandlerResult))

/-- `api_routes.get((path, method))`. -/
def apiGet : ApiRoutes → String × String → Option (Request → HandlerResult)
  | [], _ => none
  | (k, h) :: rest, key => if k = key then some h else apiGet rest key

/-- `(path, method) in api_routes`. -/
def apiContains (routes : ApiRoutes) (key : String × String) : Bool :=
  (apiGet routes key).isSome

/-- `RequestHandler.handle_api_request`: run the handler inside `try`; on a
normal result adopt the returned `Response` or set the JSON body, then run
the response middlewares, then send; on an exception send the 500 envelope
directly; on a missing route send the 404 envelope directly.  (A handler
that raises after partially mutating the response is abstracted by
`HandlerResult.raises`.) -/
def handle_api_request (mws : List Middleware) (routes : ApiRoutes)
    (method path : String) (req : Request) (resp : Response) : Response × List Ev :=
  match apiGet routes (path, method) with
  | some handler =>
    (match handler req with
     | .ok value =>
       let r1 := resp.json value
       let (r2, evs) := process_response_middlewares mws req r1
       (r2, .handlerRun :: (evs ++ [.send]))
     | .resp r =>
       let (r2, evs) := process_response_middlewares mws req r
       (r2, .handlerRun :: (evs ++ [.send]))
     | .raises msg =>
       ((resp.set_status 500).json
          (JSONResponse.error ("Internal server error: " ++ msg) 500),
        [.handlerRun, .send]))
  | none =>
    ((resp.set_status 404).json (JSONResponse.error "Not found" 404), [.send])

/-- `do_GET`: middlewares (short-circuit flushes immediately), then static
files (bytes written directly, the `Response` object is never flushed), then
API routes, else the full-page render (`text/html` body, status untouched at
200). -/
def do_GET (mws : List Middleware) (routes : ApiRoutes) (page_html : String)
    (req : Request) : Response × List Ev :=
  let resp := Response.init
  let (r1, ok, evs) := process_middlewares mws req resp
  if !ok then (r1, evs ++ [.send])
  else if pyStartsWith req.url_path "/static/" then
    (r1, evs ++ [.staticFile])
  else if apiContains routes (req.url_path, "GET") then
    let (r2, evs2) := handle_api_request mws routes "GET" req.url_path req r1
    (r2, evs ++ evs2)
  else
    let r2 := r1.set_header "Content-Type" "text/html"
    ({ r2 with body := .bstr page_html }, evs ++ [.pageRender, .send])

/-- `do_POST`: middlewares, then API routes, else the 404 envelope.  (The
multipart `request.files` assignment does not influence the response or the
event order and is omitted here; the parser itself is `parse_multipart`
below.) -/
def do_POST (mws : List Middleware) (routes : ApiRoutes) (req : Request) :
    Response × List Ev :=
  let resp := Response.init
  let (r1, ok, evs) := process_middlewares mws req resp
  if !ok then (r1, evs ++ [.send])
  else if apiContains routes (req.url_path, "POST") then
    let (r2, evs2) := handle_api_request mws routes "POST" req.url_path req r1
    (r2, evs ++ evs2)
  else
    ((r1.set_status 404).json (JSONResponse.error "Not found" 404), evs ++ [.send])

/-- `do_PUT` (same shape as `do_POST`). -/
def do_PUT (mws : List Middleware) (routes : ApiRoutes) (req : Request) :
    Response × List Ev :=
  let resp := Response.init
  let (r1, ok, evs) := process_middlewares mws req resp
  if !ok then (r1, evs ++ [.send])
  else if apiContains routes (req.url_path, "PUT") then
    let (r2, evs2) := handle_api_request mws routes "PUT" req.url_path req r1
    (r2, evs ++ evs2)
  else
    ((r1.set_status 404).json (JSONResponse.error "Not found" 404), evs ++ [.send])

/-- `do_DELETE` (same shape as `do_POST`, no body read). -/
def do_DELETE (mws : List Middleware) (routes : ApiRoutes) (req : Request) :
    Response × List Ev :=
  let resp := Response.init
  let (r1, ok, evs) := process_middlewares mws req resp
  if !ok then (r1, evs ++ [.send])
  else if apiContains routes (req.url_path, "DELETE") then
    let (r2, evs2) := handle_api_request mws routes "DELETE" req.url_path req r1
    (r2, evs ++ evs2)
  else
    ((r1.set_status 404).json (JSONResponse.error "Not found" 404), evs ++ [.send])

/-- `do_OPTIONS`: middlewares; if they all pass, status 204; flush. -/
def do_OPTIONS (mws : List Middleware) (req : Request) : Response × List Ev :=
  let resp := Response.init
  let (r1, ok, evs) := process_middlewares mws req resp
  let r2 := if ok then r1.set_status 204 else r1
  (r2, evs ++ [.send])

/-- The `respMw` events contained in a trace. -/
def respMwEvents (t : List Ev) : List Ev :=
  t.filter fun e => match e with | .respMw _ => true | _ => false

/-! ## Multipart Parser (`lib/file_upload.py`)

Body bytes are modelled as `List Char` over byte characters; the claims'
bodies are plain ASCII, for which `decode('utf-8', errors='ignore')` is the
identity on bytes below 128. -/

/-- First index of an occurrence of `sub` in `s`. -/
def findSub : List Char → List Char → Option Nat
  | s, sub =>
    if List.isPrefixOf sub s then some 0
    else
      match s with
      | [] => none
      | _ :: rest => (findSub rest sub).map (· + 1)

/-- `sub in s` on byte strings. -/
def containsSub (s sub : List Char) : Bool :=
  (findSub s sub).isSome

/-- The split loop, fuel-guarded for structural recursion: each round
consumes at least one character when `sep` is non-empty, so the wrapper's
fuel of `s.length + 1` is never exhausted. -/
def pySplitListAux (sep : List Char) : Nat → List Char → List (List Char)
  | 0, s => [s]
  | fuel + 1, s =>
    match findSub s sep with
    | some i => s.take i :: pySplitListAux sep fuel (s.drop (i + sep.length))
    | none => [s]

/-- Python `s.split(sep)` on byte strings (all occurrences, empties kept;
`sep` empty is a `ValueError` in Python and returns `[s]` here, a case the
code never reaches since the boundary is checked non-empty). -/
def pySplitList (s sep : List Char) : List (List Char) :=
  if sep.isEmpty then [s] else pySplitListAux sep (s.length + 1) s

/-- Python `s.split(sep, 1)` at the first occurrence (used for the
headers/content split at the first blank line). -/
def pySplitOnce (s sep : List Char) : Option (List Char × List Char) :=
  (findSub s sep).map fun i => (s.take i, s.drop (i + sep.length))

/-- Strip characters of `set` from the left. -/
def lstripSet (set : List Char) : List Char → List Char
  | [] => []
  | c :: cs => if set.contains c then lstripSet set cs else c :: cs

/-- Python `s.rstrip(chars)`: strip any trailing characters of the set. -/
def rstripSet (set s : List Char) : List Char :=
  (lstripSet set s.reverse).reverse

/-- Python `s.strip(chars)` (both sides). -/
def stripSet (set s : List Char) : List Char :=
  lstripSet set (rstripSet set s)

/-- Python's `str.strip()` whitespace set. -/
def pyWs : List Char :=
  [' ', Char.ofNat 9, Char.ofNat 10, Char.ofNat 13, Char.ofNat 11, Char.ofNat 12]

/-- `bytes.decode('utf-8', errors='ignore')` restricted to ASCII input:
bytes below 128 decode to themselves, stray high bytes are dropped. -/
def decode_ascii (bs : List Char) : List Char :=
  bs.filter fun c => decide (c.toNat < 128)

/-- A parsed form entry: a file field `\x7b'filename', 'content',
'size'\x7d` or a plain decoded-text field. -/
inductive FormValue where
  | file (filename : List Char) (content : List Char) (size : Nat)
  | field (text : List Char)
deriving DecidableEq, Repr

/-- The boundary extraction loop of `parse_multipart`: the first `;`-part of
the Content-Type containing `boundary=` yields
`part.split('boundary=')[1].strip()`. -/
def extract_boundary_loop : List (List Char) → Option (List Char)
  | [] => none
  | part :: rest =>
    if containsSub part ("boundary=".data) then
      some (stripSet pyWs ((pySplitList part ("boundary=".data)).getD 1 []))
    else extract_boundary_loop rest

/-- Boundary extraction from the Content-Type header value. -/
def extract_boundary (content_type : List Char) : Option (List Char) :=
  extract_boundary_loop (pySplitList content_type [';'])

/-- The inner `for item in line.split(';')` step: an item containing `name=`
(which is also a substring of `filename=`!) overwrites `name` with
`item.split('name=')[1].strip('"')`; an item containing `filename=`
overwrites `filename` likewise. -/
def dispositionStep (st : Option (List Char) × Option (List Char)) (item : List Char) :
    Option (List Char) × Option (List Char) :=
  let st1 :=
    if containsSub item ("name=".data) then
      (some (stripSet ['"'] ((pySplitList item ("name=".data)).getD 1 [])), st.2)
    else st
  if containsSub item ("filename=".data) then
    (st1.1, some (stripSet ['"'] ((pySplitList item ("filename=".data)).getD 1 [])))
  else st1

/-- The header scan of one part: every line containing `Content-Disposition`
has its `;`-items folded through `dispositionStep`. -/
def parseDisposition (headers_str : List Char) : Option (List Char) × Option (List Char) :=
  (pySplitList headers_str ("\r\n".data)).foldl
    (fun st line =>
      if containsSub line ("Content-Disposition".data) then
        (pySplitList line [';']).foldl dispositionStep st
      else st)
    (none, none)

/-- Processing of one boundary-delimited part: skip empty/terminal parts,
split headers from content at the first `\r\n\r\n`, right-strip CR/LF from
the content, scan Content-Disposition, then store a file record (when a
non-empty filename was captured) or a decoded text field under the captured
name. -/
def parsePart (result : List (List Char × FormValue)) (part : List Char) :
    List (List Char × FormValue) :=
  if part.isEmpty || part = "--\r\n".data || part = "--".data then result
  else
    match pySplitOnce part ("\r\n\r\n".data) with
    | none => result
    | some (headers_section, content0) =>
      let content := rstripSet [Char.ofNat 13, Char.ofNat 10] content0
      let headers_str := decode_ascii headers_section
      let (name, filename) := parseDisposition headers_str
      match name with
      | none => result
      | some n =>
        if n.isEmpty then result
        else
          match filename with
          | some f =>
            if f.isEmpty then dictSet result n (.field (decode_ascii content))
            else dictSet result n (.file f content content.length)
          | none => dictSet result n (.field (decode_ascii content))

/-- `FileUpload.parse_multipart`: extract the boundary (absent or empty →
empty result), split the body on `--boundary`, and fold every part through
`parsePart`. -/
def parse_multipart (body : List Char) (content_type : List Char) :
    List (List Char × FormValue) :=
  match extract_boundary content_type with
  | none => []
  | some boundary =>
    if boundary.isEmpty then []
    else
      let boundary_bytes := "--".data ++ boundary
      (pySplitList body boundary_bytes).foldl parsePart []

/-- The concrete two-part multipart body of the parsing claim: `field1` is a
plain text part, `file1` a named file part with 8 content bytes. -/
def c9_body : List Char :=
  ("--BOUNDARY\r\nContent-Disposition: form-data; name=\"field1\"\r\n\r\nhello\r\n--BOUNDARY\r\nContent-Disposition: form-data; name=\"file1\"; filename=\"test.txt\"\r\nContent-Type: text/plain\r\n\r\nfiledata\r\n--BOUNDARY--\r\n").data

/-- The matching Content-Type header value. -/
def c9_content_type : List Char := ("multipart/form-data; boundary=BOUNDARY").data

/-! # Theorems

First the supporting lemmas, then one theorem per claim (with witnesses and
counterexamples where required). -/

theorem unescape_html_amp (r : List Char) :
    unescape_html ('&' :: 'a' :: 'm' :: 'p' :: ';' :: r) = '&' :: unescape_html r := by
  rw [unescape_html, if_pos rfl, unescapeAfterAmp]

theorem unescape_html_lt (r : List Char) :
    unescape_html ('&' :: 'l' :: 't' :: ';' :: r) = '<' :: unescape_html r := by
  rw [unescape_html, if_pos rfl]
  simp [unescapeAfterAmp]

theorem unescape_html_gt (r : List Char) :
    unescape_html ('&' :: 'g' :: 't' :: ';' :: r) = '>' :: unescape_html r := by
  rw [unescape_html, if_pos rfl]
  simp [unescapeAfterAmp]

theorem unescape_html_quot (r : List Char) :
    unescape_html ('&' :: 'q' :: 'u' :: 'o' :: 't' :: ';' :: r) = '"' :: unescape_html r := by
  rw [unescape_html, if_pos rfl]
  simp [unescapeAfterAmp]

theorem unescape_html_x27 (r : List Char) :
    unescape_html ('&' :: '#' :: 'x' :: '2' :: '7' :: ';' :: r) = squote :: unescape_html r := by
  rw [unescape_html, if_pos rfl]
  simp [unescapeAfterAmp]

theorem unescape_html_cons (c : Char) (r : List Char) (h : c ≠ '&') :
    unescape_html (c :: r) = c :: unescape_html r := by
  rw [unescape_html, if_neg h]

/-- `html.unescape` is a left inverse of `html.escape` on character lists. -/
theorem unescape_escape (s : List Char) : unescape_html (escape_html s) = s := by
  induction s with
  | nil => rw [escape_html, unescape_html]
  | cons c cs ih =>
    rw [escape_html]
    by_cases h1 : c = '&'
    · subst h1
      have e : escapeChar '&' ++ escape_html cs = '&' :: 'a' :: 'm' :: 'p' :: ';' :: escape_html cs := rfl
      rw [e, unescape_html_amp, ih]
    by_cases h2 : c = '<'
    · subst h2
      have e : escapeChar '<' ++ escape_html cs = '&' :: 'l' :: 't' :: ';' :: escape_html cs := rfl
      rw [e, unescape_html_lt, ih]
    by_cases h3 : c = '>'
    · subst h3
      have e : escapeChar '>' ++ escape_html cs = '&' :: 'g' :: 't' :: ';' :: escape_html cs := rfl
      rw [e, unescape_html_gt, ih]
    by_cases h4 : c = '"'
    · subst h4
      have e : escapeChar '"' ++ escape_html cs = '&' :: 'q' :: 'u' :: 'o' :: 't' :: ';' :: escape_html cs := rfl
      rw [e, unescape_html_quot, ih]
    by_cases h5 : c = squote
    · subst h5
      have e : escapeChar squote ++ escape_html cs = '&' :: '#' :: 'x' :: '2' :: '7' :: ';' :: escape_html cs := rfl
      rw [e, unescape_html_x27, ih]
    · rw [escapeChar, if_neg h1, if_neg h2, if_neg h3, if_neg h4, if_neg h5,
        List.singleton_append, unescape_html_cons c _ h1, ih]

/-- The escape/unescape round trip at `String` type. -/
theorem unescape_escape_str (s : String) : unescapeHtmlStr (escapeHtmlStr s) = s := by
  rcases s with ⟨data⟩
  simp [unescapeHtmlStr, escapeHtmlStr, unescape_escape]

/-- Claim C1 — the code at the claimed property's failing input: a single
quote in the text passed to `set_text` is interpolated verbatim (no
backslash appears anywhere in the produced statement), so the compiled
script ends inside an unterminated string literal, while the same handler
with quote-free text is well formed.  This refutes "single quotes embedded
in element ids or content strings are escaped in the generated JS". -/
theorem C1_set_text_unescaped_quote :
    jsLiteralsClosed (PyScript.to_js (PyScript.set_text PyScript.empty "out" ("it" ++ sq ++ "s"))) = false ∧
    (JSBuilder.set_text "out" ("it" ++ sq ++ "s")).data.contains bslash = false ∧
    jsLiteralsClosed (PyScript.to_js (PyScript.set_text PyScript.empty "out" "its")) = true := by
  refine ⟨by decide, by decide, by decide⟩

/-- Claim C4 — the code at the claimed property's failing input: a prop
explicitly set to `None` is rendered as `required="None"` by `to_html`, not
omitted. -/
theorem C4_none_prop_rendered_as_None :
    Element.to_html (.node "input" [("required", .vnone)] []) = "<input required=\"None\" />" := by
  decide

/-- Claim C5: with `/users/:id` and `/users/:id/edit` registered in that
order, `/users/42` matches the first with `id = "42"`, `/users/42/edit`
matches the second with `id = "42"`, `/users` matches neither; parameter
segments bind the URL-decoded segment, and an exact string match wins before
any pattern matching. -/
theorem C5_route_matching :
    Router.match_route ["/users/:id", "/users/:id/edit"] "/users/42"
        = (some "/users/:id", [("id", "42")]) ∧
    Router.match_route ["/users/:id", "/users/:id/edit"] "/users/42/edit"
        = (some "/users/:id/edit", [("id", "42")]) ∧
    Router.match_route ["/users/:id", "/users/:id/edit"] "/users" = (none, []) ∧
    Router.match_route ["/users/:id", "/users/:id/edit"] "/users/a%20b"
        = (some "/users/:id", [("id", "a b")]) ∧
    (∀ (routes : List String) (path : String), routes.contains path = true →
      Router.match_route routes path = (some path, [])) := by
  refine ⟨by decide, by decide, by decide, by decide, ?_⟩
  intro routes path h
  rw [Router.match_route, if_pos h]

/-- Witness for C5: the exact-match conjunct applied at a concrete route
table. -/
theorem C5_route_matching_witness :
    Router.match_route ["/home"] "/home" = (some "/home", []) :=
  C5_route_matching.2.2.2.2 ["/home"] "/home" (by decide)

/-- Claim C6, counterexample: a session created with `max_age = 0` and read
back at the very creation instant yields the stored data, not `None`—the
expiry test `now - created_at > max_age` is strict, so zero elapsed time is
not expired and "immediately calling `get` returns `None`" fails at elapsed
time zero. -/
theorem C6_counterexample_get_at_creation_instant :
    (Session.get (Session.create ([] : SessionStore String) "sid" "x" 0 0) "sid" 0).1
      = some "x" := by
  decide

/-- Claim C6 as amended: with `max_age = 0`, a `get` at any strictly later
time returns `None` and removes the record, and a second `get` of the same
id also returns `None`; only a `get` at exactly the creation timestamp still
returns the data. -/
theorem C6_zero_max_age_expires_strictly_later (α : Type) (d : α) (sid : String)
    (t0 t1 : Int) (h : t0 < t1) :
    Session.get (Session.create ([] : SessionStore α) sid d t0 0) sid t1 = (none, []) ∧
    (Session.get ((Session.get (Session.create ([] : SessionStore α) sid d t0 0) sid t1).2)
        sid t1).1 = none := by
  have hgt : t1 - t0 > 0 := by omega
  constructor
  · simp [Session.create, Session.get, Session.destroy, dictSet, dictGet, dictDel, hgt]
  · simp [Session.create, Session.get, Session.destroy, dictSet, dictGet, dictDel, hgt]

/-- Witness for C6 (amended claim at a concrete instant one tick later). -/
theorem C6_zero_max_age_expires_witness :
    Session.get (Session.create ([] : SessionStore String) "sid" "x" 0 0) "sid" 1 = (none, []) ∧
    (Session.get ((Session.get (Session.create ([] : SessionStore String) "sid" "x" 0 0) "sid" 1).2)
        "sid" 1).1 = none :=
  C6_zero_max_age_expires_strictly_later String "x" "sid" 0 1 (by norm_num)

/-- Claim C7: `Request` construction is total — a body that fails JSON
decoding leaves `json_data` as the empty mapping, and an absent
`Content-Length` header yields the empty body. -/
theorem C7_request_construction_never_raises (body stream : List Char) :
    (pyJsonLoads body = none → request_json_data body = .jobj []) ∧
    request_body none stream = [] := by
  constructor
  · intro h
    by_cases hb : body.isEmpty <;> simp [request_json_data, hb, h]
  · rfl

/-- Witness for C7 at a concrete non-JSON body. -/
theorem C7_request_construction_witness :
    pyJsonLoads ("notjson".data) = none ∧
    request_json_data ("notjson".data) = .jobj [] ∧
    request_body none ("abc".data) = [] :=
  ⟨rfl, (C7_request_construction_never_raises ("notjson".data) ("abc".data)).1 rfl,
   (C7_request_construction_never_raises ("notjson".data) ("abc".data)).2⟩

/-- Claim C8: for every text string, HTML-unescaping the serializer's output
for a `text` element recovers exactly the original string. -/
theorem C8_text_serializer_roundtrip (s : String) :
    unescapeHtmlStr (Element.to_html (.node "text" [("content", .vstr s)] [])) = s := by
  have h : Element.to_html (.node "text" [("content", .vstr s)] []) = escapeHtmlStr s := rfl
  rw [h, unescape_escape_str]

set_option maxRecDepth 10000 in
/-- Claim C9 — the code at the claimed property's failing input: the
two-part body parses into two entries of the right shapes (the file record's
`size` is 8, the byte length of its content), but the file entry is keyed by
the *filename* `test.txt`, not by the field name `file1` — the header scan's
`'name=' in item` test also fires on the `filename="test.txt"` item (whose
text contains `name=` as a substring) and overwrites the captured name — so
no `file1` key exists in the result. -/
theorem C9_multipart_file_keyed_by_filename :
    parse_multipart c9_body c9_content_type =
      [("field1".data, .field ("hello".data)),
       ("test.txt".data, .file ("test.txt".data) ("filedata".data) 8)] ∧
    dictGet (parse_multipart c9_body c9_content_type) ("file1".data) = none := by
  refine ⟨by decide, by decide⟩

/-- Claim C10: when the body decodes as JSON, `json_data` is exactly the
decoded value, mapping or not — shown generally and at the list-valued body
`[1, 2]`, whose decoded value is not a mapping. -/
theorem C10_json_data_nonmapping (body : List Char) (v : PyJson)
    (h : pyJsonLoads body = some v) :
    request_json_data body = v ∧
    request_json_data ("[1, 2]".data) = .jarr [.jint 1, .jint 2] ∧
    PyJson.isMapping (request_json_data ("[1, 2]".data)) = false := by
  refine ⟨?_, rfl, rfl⟩
  have hb : body ≠ [] := by
    intro h0
    subst h0
    simp [pyJsonLoads, parseValue, skipWs] at h
  simp [request_json_data, List.isEmpty_iff, hb, h]

/-- Witness for C10 at the concrete list-valued body. -/
theorem C10_json_data_nonmapping_witness :
    request_json_data ("[1, 2]".data) = .jarr [.jint 1, .jint 2] :=
  (C10_json_data_nonmapping ("[1, 2]".data) (.jarr [.jint 1, .jint 2]) rfl).1

theorem respMwEvents_append (a b : List Ev) :
    respMwEvents (a ++ b) = respMwEvents a ++ respMwEvents b := by
  simp [respMwEvents, List.filter_append]

/-- The response phase emits exactly one `respMw` event per middleware, in
registration order. -/
theorem process_response_aux_events (mws : List Middleware) (req : Request) :
    ∀ (i : Nat) (resp : Response),
      (process_response_aux mws i req resp).2
        = (List.range mws.length).map (fun j => Ev.respMw (i + j)) := by
  induction mws with
  | nil => intro i resp; rfl
  | cons m rest ih =>
    intro i resp
    simp [process_response_aux, ih (i + 1), List.range_succ_eq_map, List.map_map,
      Function.comp, Nat.add_comm, Nat.add_left_comm, Nat.add_assoc]

/-- The request phase emits only `reqMw` events. -/
theorem process_middlewares_aux_no_respMw (mws : List Middleware) (req : Request) :
    ∀ (i : Nat) (resp : Response),
      respMwEvents (process_middlewares_aux mws i req resp).2.2 = [] := by
  induction mws with
  | nil => intro i resp; rfl
  | cons m rest ih =>
    intro i resp
    rcases hpr : m.process_request req resp with ⟨r2, cont⟩
    have h2 := ih (i + 1) r2
    rcases cont with _ | _
    · simp [process_middlewares_aux, hpr, respMwEvents]
    · rcases haux : process_middlewares_aux rest (i + 1) req r2 with ⟨r3, ok, evs⟩
      rw [haux] at h2
      simp [process_middlewares_aux, hpr, haux, respMwEvents] at h2 ⊢
      exact h2

theorem respMwEvents_send : respMwEvents [Ev.send] = [] := rfl

theorem respMwEvents_page_send : respMwEvents [Ev.pageRender, Ev.send] = [] := rfl

theorem respMwEvents_handler_send : respMwEvents [Ev.handlerRun, Ev.send] = [] := rfl

theorem respMwEvents_static : respMwEvents [Ev.staticFile] = [] := rfl

/-- Claim C2, counterexample: with an Auth middleware that denies the
request (process_request returns false), the dispatch flushes immediately
with no `respMw` event; likewise a full-page render and a POST 404 with a
registered Logging middleware flush without any `respMw` event.  This
refutes "each middleware's process_response is invoked … including when an
earlier middleware's process_request returned false and including non-API
outcomes". -/
theorem C2_counterexample_response_mw_skipped :
    (do_GET [AuthMiddleware ["/"] default_auth_checker] [] "p" ⟨"GET", "/admin", none⟩).2
      = [.reqMw 0, .send] ∧
    respMwEvents (do_GET [AuthMiddleware ["/"] default_auth_checker] [] "p"
        ⟨"GET", "/admin", none⟩).2 = [] ∧
    (do_GET [LoggingMiddleware] [] "p" ⟨"GET", "/nope", none⟩).2
      = [.reqMw 0, .pageRender, .send] ∧
    respMwEvents (do_GET [LoggingMiddleware] [] "p" ⟨"GET", "/nope", none⟩).2 = [] ∧
    (do_POST [LoggingMiddleware] [] ⟨"POST", "/nope", none⟩).2 = [.reqMw 0, .send] := by
  refine ⟨by decide, by decide, by decide, by decide, by decide⟩

/-- Claim C2 as amended: the response middlewares run — one `respMw` event
per middleware, in registration order, after the handler and before the
flush — exactly on the successful API-handler path, whether the handler
returned a value or a `Response` object of its own; a request-phase
short-circuit, a static-file request, a full-page render, an unmatched-route
404 (POST, PUT and DELETE alike) and a raising handler all flush without any
`process_response` invocation. -/
theorem C2_response_mw_only_on_api_success :
    (∀ (mws : List Middleware) (routes : ApiRoutes) (page : String) (req : Request)
       (r1 : Response) (evs : List Ev) (handler : Request → HandlerResult) (v : PyJson),
      process_middlewares mws req Response.init = (r1, true, evs) →
      pyStartsWith req.url_path "/static/" = false →
      apiGet routes (req.url_path, "GET") = some handler →
      handler req = .ok v →
      (do_GET mws routes page req).2
        = evs ++ (Ev.handlerRun :: ((List.range mws.length).map Ev.respMw ++ [Ev.send]))) ∧
    (∀ (mws : List Middleware) (routes : ApiRoutes) (page : String) (req : Request)
       (r1 : Response) (evs : List Ev) (handler : Request → HandlerResult) (r0 : Response),
      process_middlewares mws req Response.init = (r1, true, evs) →
      pyStartsWith req.url_path "/static/" = false →
      apiGet routes (req.url_path, "GET") = some handler →
      handler req = .resp r0 →
      (do_GET mws routes page req).2
        = evs ++ (Ev.handlerRun :: ((List.range mws.length).map Ev.respMw ++ [Ev.send]))) ∧
    (∀ (mws : List Middleware) (routes : ApiRoutes) (page : String) (req : Request)
       (r1 : Response) (evs : List Ev),
      process_middlewares mws req Response.init = (r1, false, evs) →
      respMwEvents (do_GET mws routes page req).2 = []) ∧
    (∀ (mws : List Middleware) (routes : ApiRoutes) (page : String) (req : Request)
       (r1 : Response) (evs : List Ev),
      process_middlewares mws req Response.init = (r1, true, evs) →
      pyStartsWith req.url_path "/static/" = true →
      respMwEvents (do_GET mws routes page req).2 = []) ∧
    (∀ (mws : List Middleware) (routes : ApiRoutes) (page : String) (req : Request)
       (r1 : Response) (evs : List Ev),
      process_middlewares mws req Response.init = (r1, true, evs) →
      pyStartsWith req.url_path "/static/" = false →
      apiContains routes (req.url_path, "GET") = false →
      respMwEvents (do_GET mws routes page req).2 = []) ∧
    (∀ (mws : List Middleware) (routes : ApiRoutes) (req : Request)
       (r1 : Response) (evs : List Ev),
      process_middlewares mws req Response.init = (r1, true, evs) →
      apiContains routes (req.url_path, "POST") = false →
      respMwEvents (do_POST mws routes req).2 = []) ∧
    (∀ (mws : List Middleware) (routes : ApiRoutes) (req : Request)
       (r1 : Response) (evs : List Ev),
      process_middlewares mws req Response.init = (r1, true, evs) →
      apiContains routes (req.url_path, "PUT") = false →
      respMwEvents (do_PUT mws routes req).2 = []) ∧
    (∀ (mws : List Middleware) (routes : ApiRoutes) (req : Request)
       (r1 : Response) (evs : List Ev),
      process_middlewares mws req Response.init = (r1, true, evs) →
      apiContains routes (req.url_path, "DELETE") = false →
      respMwEvents (do_DELETE mws routes req).2 = []) ∧
    (∀ (mws : List Middleware) (routes : ApiRoutes) (page : String) (req : Request)
       (r1 : Response) (evs : List Ev) (handler : Request → HandlerResult) (msg : String),
      process_middlewares mws req Response.init = (r1, true, evs) →
      pyStartsWith req.url_path "/static/" = false →
      apiGet routes (req.url_path, "GET") = some handler →
      handler req = .raises msg →
      respMwEvents (do_GET mws routes page req).2 = []) := by
  have no_resp : ∀ (mws : List Middleware) (req : Request) (r1 : Response) (b : Bool)
      (evs : List Ev), process_middlewares mws req Response.init = (r1, b, evs) →
      respMwEvents evs = [] := by
    intro mws req r1 b evs h
    have k := process_middlewares_aux_no_respMw mws req 0 Response.init
    rw [show process_middlewares_aux mws 0 req Response.init
        = process_middlewares mws req Response.init from rfl, h] at k
    simpa using k
  refine ⟨?_, ?_, ?_, ?_, ?_, ?_, ?_, ?_, ?_⟩
  · intro mws routes page req r1 evs handler v h hstatic hget hok
    simp [do_GET, h, hstatic, apiContains, hget, handle_api_request, hok,
      process_response_middlewares, process_response_aux_events]
  · intro mws routes page req r1 evs handler r0 h hstatic hget hresp
    simp [do_GET, h, hstatic, apiContains, hget, handle_api_request, hresp,
      process_response_middlewares, process_response_aux_events]
  · intro mws routes page req r1 evs h
    simp [do_GET, h, respMwEvents_append, no_resp mws req r1 false evs h,
      respMwEvents_send]
  · intro mws routes page req r1 evs h hstatic
    simp [do_GET, h, hstatic, respMwEvents_append,
      no_resp mws req r1 true evs h, respMwEvents_static]
  · intro mws routes page req r1 evs h hstatic hapi
    simp [do_GET, h, hstatic, hapi, respMwEvents_append,
      no_resp mws req r1 true evs h, respMwEvents_page_send, respMwEvents_send]
  · intro mws routes req r1 evs h hapi
    simp [do_POST, h, hapi, respMwEvents_append,
      no_resp mws req r1 true evs h, respMwEvents_send]
  · intro mws routes req r1 evs h hapi
    simp [do_PUT, h, hapi, respMwEvents_append,
      no_resp mws req r1 true evs h, respMwEvents_send]
  · intro mws routes req r1 evs h hapi
    simp [do_DELETE, h, hapi, respMwEvents_append,
      no_resp mws req r1 true evs h, respMwEvents_send]
  · intro mws routes page req r1 evs handler msg h hstatic hget hraise
    simp [do_GET, h, hstatic, apiContains, hget, handle_api_request, hraise,
      respMwEvents_append, no_resp mws req r1 true evs h,
      respMwEvents_handler_send, respMwEvents_send]

/-- Witness for C2 (amended, success-path conjunct) at one registered
Logging middleware and a matched GET API route. -/
theorem C2_response_mw_witness :
    (do_GET [LoggingMiddleware] [(("/api/x", "GET"), fun _ => HandlerResult.ok .null)]
        "p" ⟨"GET", "/api/x", none⟩).2
      = [Ev.reqMw 0, Ev.handlerRun, Ev.respMw 0, Ev.send] := by
  have h := C2_response_mw_only_on_api_success.1 [LoggingMiddleware]
    [(("/api/x", "GET"), fun _ => HandlerResult.ok .null)] "p" ⟨"GET", "/api/x", none⟩
    Response.init [Ev.reqMw 0] (fun _ => HandlerResult.ok .null) .null rfl rfl rfl rfl
  simpa using h

/-- Claim C3, counterexample: a GET to a path matching no API route and no
static prefix is answered by the full-page HTML render with status 200, not
by the 404 JSON envelope — refuting "this holds for every supported HTTP
method, including GET". -/
theorem C3_counterexample_get_unmatched_renders_page :
    do_GET [] [] "<h1>page</h1>" ⟨"GET", "/nothere", none⟩ =
      ({ status_code := 200, headers := [("Content-Type", "text/html")],
         body := .bstr "<h1>page</h1>", cookies_to_set := [] }, [.pageRender, .send]) ∧
    (do_GET [] [] "<h1>page</h1>" ⟨"GET", "/nothere", none⟩).1.status_code ≠ 404 := by
  exact ⟨rfl, by decide⟩

/-- Claim C3 as amended: an unmatched, non-static path yields the structured
JSON error envelope with code 404 for POST, PUT and DELETE, while for GET
the server falls through to the full-page HTML render with status 200. -/
theorem C3_unmatched_route_responses :
    (∀ (routes : ApiRoutes) (req : Request),
      apiContains routes (req.url_path, "POST") = false →
      do_POST [] routes req
        = ((Response.init.set_status 404).json (JSONResponse.error "Not found" 404),
           [.send])) ∧
    (∀ (routes : ApiRoutes) (req : Request),
      apiContains routes (req.url_path, "PUT") = false →
      do_PUT [] routes req
        = ((Response.init.set_status 404).json (JSONResponse.error "Not found" 404),
           [.send])) ∧
    (∀ (routes : ApiRoutes) (req : Request),
      apiContains routes (req.url_path, "DELETE") = false →
      do_DELETE [] routes req
        = ((Response.init.set_status 404).json (JSONResponse.error "Not found" 404),
           [.send])) ∧
    (∀ (routes : ApiRoutes) (page : String) (req : Request),
      pyStartsWith req.url_path "/static/" = false →
      apiContains routes (req.url_path, "GET") = false →
      do_GET [] routes page req
        = ({ Response.init.set_header "Content-Type" "text/html" with body := .bstr page },
           [.pageRender, .send])) := by
  refine ⟨?_, ?_, ?_, ?_⟩
  · intro routes req h
    simp [do_POST, process_middlewares, process_middlewares_aux, h]
  · intro routes req h
    simp [do_PUT, process_middlewares, process_middlewares_aux, h]
  · intro routes req h
    simp [do_DELETE, process_middlewares, process_middlewares_aux, h]
  · intro routes page req h1 h2
    simp [do_GET, process_middlewares, process_middlewares_aux, h1, h2]

/-- Witness for C3 (amended, POST conjunct) at an empty route table. -/
theorem C3_unmatched_route_witness :
    do_POST [] [] ⟨"POST", "/x", none⟩
      = ((Response.init.set_status 404).json (JSONResponse.error "Not found" 404),
         [.send]) :=
  C3_unmatched_route_responses.1 [] ⟨"POST", "/x", none⟩ rfl

end Particule
